import Mathlib

set_option maxRecDepth 100000

/-!
Shallow embedding of the WhatsApp webhook backend (webhook security
utilities, send/retry pipeline, webhook dispatcher, admin broadcast
coordinator), together with theorems settling claims C1-C10.

Python strings are modelled as `List Char`, raw request bodies as
`List Nat` (byte values), JSON values as the inductive `JVal`.
Optional configuration strings use `[]` for Python `None`/`""` (both are
falsy in every check the source performs on them).
-/

namespace HealthBot

/-- Python `str.strip()`: drop whitespace at both ends. -/
def pyStrip (s : List Char) : List Char :=
  ((s.dropWhile Char.isWhitespace).reverse.dropWhile Char.isWhitespace).reverse

/-- Python `str.isdigit()` (ASCII fragment): non-empty and all digits. -/
def pyIsDigit (s : List Char) : Bool :=
  !s.isEmpty && s.all Char.isDigit

/-! ## SHA-256 and HMAC (the `hashlib`/`hmac` calls made by the verifier) -/

namespace SHA256

def w32 (n : Nat) : Nat := n % 4294967296

def rotr (n x : Nat) : Nat := w32 ((x >>> n) ||| (x <<< (32 - n)))

def bnot32 (x : Nat) : Nat := x ^^^ 4294967295

def ch (x y z : Nat) : Nat := (x &&& y) ^^^ (bnot32 x &&& z)

def maj (x y z : Nat) : Nat := (x &&& y) ^^^ (x &&& z) ^^^ (y &&& z)

def bigS0 (x : Nat) : Nat := rotr 2 x ^^^ rotr 13 x ^^^ rotr 22 x

def bigS1 (x : Nat) : Nat := rotr 6 x ^^^ rotr 11 x ^^^ rotr 25 x

def smallS0 (x : Nat) : Nat := rotr 7 x ^^^ rotr 18 x ^^^ (x >>> 3)

def smallS1 (x : Nat) : Nat := rotr 17 x ^^^ rotr 19 x ^^^ (x >>> 10)

def K : List Nat :=
  [1116352408, 1899447441, 3049323471, 3921009573, 961987163,
   1508970993, 2453635748, 2870763221, 3624381080, 310598401,
   607225278, 1426881987, 1925078388, 2162078206, 2614888103,
   3248222580, 3835390401, 4022224774, 264347078, 604807628,
   770255983, 1249150122, 1555081692, 1996064986, 2554220882,
   2821834349, 2952996808, 3210313671, 3336571891, 3584528711,
   113926993, 338241895, 666307205, 773529912, 1294757372,
   1396182291, 1695183700, 1986661051, 2177026350, 2456956037,
   2730485921, 2820302411, 3259730800, 3345764771, 3516065817,
   3600352804, 4094571909, 275423344, 430227734, 506948616,
   659060556, 883997877, 958139571, 1322822218, 1537002063,
   1747873779, 1955562222, 2024104815, 2227730452, 2361852424,
   2428436474, 2756734187, 3204031479, 3329325298]

def H0 : List Nat :=
  [1779033703, 3144134277, 1013904242, 2773480762, 1359893119,
   2600822924, 528734635, 1541459225]

/-- Big-endian byte expansion of a number, fixed width. -/
def toBytesBE : Nat → Nat → List Nat
  | 0, _ => []
  | k + 1, n => toBytesBE k (n >>> 8) ++ [n % 256]

/-- SHA-256 padding: 0x80, zeros, then the 64-bit big-endian bit length. -/
def padMessage (msg : List Nat) : List Nat :=
  msg ++ [128] ++ List.replicate ((119 - msg.length % 64) % 64) 0
      ++ toBytesBE 8 (msg.length * 8)

def bytesToWords : List Nat → List Nat
  | a :: b :: c :: d :: rest =>
      ((a <<< 24) ||| (b <<< 16) ||| (c <<< 8) ||| d) :: bytesToWords rest
  | _ => []

/-- Extend the 16 schedule words by `k` more words. -/
def extendGo : Nat → List Nat → List Nat
  | 0, ws => ws
  | k + 1, ws =>
      let i := ws.length
      extendGo k (ws ++ [w32 (smallS1 (ws.getD (i - 2) 0) + ws.getD (i - 7) 0 +
        smallS0 (ws.getD (i - 15) 0) + ws.getD (i - 16) 0)])

/-- One round of the compression loop per constant/schedule-word pair. -/
def compressGo : List Nat → List Nat → List Nat → List Nat
  | [], _, st => st
  | _, [], st => st
  | k :: ks, w :: ws, st =>
      let t1 := w32 (st.getD 7 0 + bigS1 (st.getD 4 0) +
        ch (st.getD 4 0) (st.getD 5 0) (st.getD 6 0) + k + w)
      let t2 := w32 (bigS0 (st.getD 0 0) +
        maj (st.getD 0 0) (st.getD 1 0) (st.getD 2 0))
      compressGo ks ws
        [w32 (t1 + t2), st.getD 0 0, st.getD 1 0, st.getD 2 0,
         w32 (st.getD 3 0 + t1), st.getD 4 0, st.getD 5 0, st.getD 6 0]

def compressBlock (st block : List Nat) : List Nat :=
  let ws := extendGo 48 (bytesToWords block)
  (List.zip st (compressGo K ws st)).map (fun p => w32 (p.1 + p.2))

/-- Split into 64-byte blocks (the fuel bounds the recursion by the length). -/
def chunksGo : Nat → List Nat → List (List Nat)
  | 0, _ => []
  | _, [] => []
  | fuel + 1, l => l.take 64 :: chunksGo fuel (l.drop 64)

def sha256 (msg : List Nat) : List Nat :=
  (((chunksGo (padMessage msg).length (padMessage msg)).foldl compressBlock H0).map
    (toBytesBE 4)).flatten

/-- HMAC-SHA256 over byte lists, as `hmac.new(key, msg, hashlib.sha256)`. -/
def hmacSha256 (key msg : List Nat) : List Nat :=
  let k0 := if key.length > 64 then sha256 key else key
  let kp := k0 ++ List.replicate (64 - k0.length) 0
  sha256 ((kp.map (fun b => b ^^^ 0x5c)) ++ sha256 ((kp.map (fun b => b ^^^ 0x36)) ++ msg))

def hexChar (n : Nat) : Char :=
  if n < 10 then Char.ofNat (48 + n) else Char.ofNat (87 + n)

/-- Lower-case hex encoding, as `.hexdigest()`. -/
def hexdigest (bs : List Nat) : List Char :=
  (bs.map (fun b => [hexChar (b / 16), hexChar (b % 16)])).flatten

end SHA256

/-- UTF-8 encoding of a string, as Python `str.encode("utf-8")`. -/
def utf8Encode (s : List Char) : List Nat :=
  (s.map (fun c =>
    let n := c.toNat
    if n < 128 then [n]
    else if n < 2048 then [192 ||| (n >>> 6), 128 ||| (n &&& 63)]
    else if n < 65536 then
      [224 ||| (n >>> 12), 128 ||| ((n >>> 6) &&& 63), 128 ||| (n &&& 63)]
    else
      [240 ||| (n >>> 18), 128 ||| ((n >>> 12) &&& 63),
       128 ||| ((n >>> 6) &&& 63), 128 ||| (n &&& 63)])).flatten

/-- The configuration surface read by the routers and the verifier
(`src/config.py`).  `[]` models an unset (`None`) or empty value: the
source only ever tests these fields for truthiness or equality. -/
structure Config where
  WHATSAPP_VERIFY_TOKEN : List Char
  WHATSAPP_ACCESS_TOKEN : List Char
  WHATSAPP_PHONE_NUMBER_ID : List Char
  ENVIRONMENT : List Char

/-- Embedding of `verify_webhook_signature` (webhook_security.py lines 20-81).
Returns `.error` where the source raises `WebhookValidationError`. -/
def verify_webhook_signature (cfg : Config) (payload : List Nat)
    (signature : List Char) (secret : Option (List Char)) : Except (List Char) Bool :=
  let webhook_secret := match secret with
    | some s => if s = [] then cfg.WHATSAPP_VERIFY_TOKEN else s
    | none => cfg.WHATSAPP_VERIFY_TOKEN
  if webhook_secret = [] then .ok true
  else if cfg.ENVIRONMENT = "development".toList then .ok true
  else if signature = [] then .ok false
  else if !("sha256=".toList.isPrefixOf signature) then
    .error "Invalid signature format - must start with 'sha256='".toList
  else
    .ok (SHA256.hexdigest (SHA256.hmacSha256 (utf8Encode webhook_secret) payload)
      == signature.drop 7)

/-! ## JSON values and webhook payload validation -/

/-- Parsed JSON values, as produced by `json.loads`.  `null` also models
Python `None` where the source stores it in an extracted record. -/
inductive JVal where
  | null : JVal
  | bool : Bool → JVal
  | num : Int → JVal
  | str : String → JVal
  | arr : List JVal → JVal
  | obj : List (String × JVal) → JVal

/-- Association-list lookup (Python dict access; keys are unique). -/
def alistGet (k : String) : List (String × JVal) → Option JVal
  | [] => none
  | (k', v) :: rest => if k' = k then some v else alistGet k rest

/-- Python `d.get(k)` on a JSON value (none when not a dict or key absent). -/
def jget (v : JVal) (k : String) : Option JVal :=
  match v with
  | .obj fs => alistGet k fs
  | _ => none

/-- Python `d.get(k, default)`. -/
def jgetD (v : JVal) (k : String) (d : JVal) : JVal :=
  match jget v k with
  | some w => w
  | none => d

/-- Python truthiness of a JSON value. -/
def jtruthy : JVal → Bool
  | .null => false
  | .bool b => b
  | .num n => n != 0
  | .str s => !s.isEmpty
  | .arr xs => !xs.isEmpty
  | .obj fs => !fs.isEmpty

/-- Whether a JSON value is exactly the given string. -/
def jIsStr (v : JVal) (s : String) : Bool :=
  match v with
  | .str t => t == s
  | _ => false

/-- Embedding of `validate_webhook_payload_structure` (webhook_security.py
lines 84-113).  `.error` models the raised `WebhookValidationError`. -/
def validate_webhook_payload_structure (payload : JVal) : Except (List Char) Unit :=
  match payload with
  | .obj fs =>
    if (alistGet "object" fs).isNone then
      .error "Missing 'object' field in webhook payload".toList
    else if !(jIsStr (jgetD payload "object" .null) "whatsapp_business_account") then
      .error "Invalid object type".toList
    else match alistGet "entry" fs with
      | none => .error "Missing 'entry' field in webhook payload".toList
      | some (.arr entries) =>
          if entries.isEmpty then .error "'entry' array cannot be empty".toList
          else .ok ()
      | some _ => .error "'entry' field must be an array".toList
  | _ => .error "Payload must be a JSON object".toList

/-- Embedding of `validate_webhook_entry` (webhook_security.py lines 116-137). -/
def validate_webhook_entry (entry : JVal) : Except (List Char) Unit :=
  match entry with
  | .obj fs =>
    if (alistGet "id" fs).isNone then
      .error "Missing required field 'id' in webhook entry".toList
    else if (alistGet "changes" fs).isNone then
      .error "Missing required field 'changes' in webhook entry".toList
    else match alistGet "changes" fs with
      | some (.arr _) => .ok ()
      | _ => .error "'changes' field must be an array".toList
  | _ => .error "Webhook entry must be an object".toList

/-- Embedding of `validate_webhook_change` (webhook_security.py lines 140-168).
A change whose field tag is not "messages" is accepted (early return). -/
def validate_webhook_change (change : JVal) : Except (List Char) Unit :=
  match change with
  | .obj fs =>
    if (alistGet "value" fs).isNone then
      .error "Missing required field 'value' in webhook change".toList
    else if (alistGet "field" fs).isNone then
      .error "Missing required field 'field' in webhook change".toList
    else if !(jIsStr (jgetD change "field" .null) "messages") then
      .ok ()
    else match jgetD change "value" (.obj []) with
      | .obj _ => .ok ()
      | _ => .error "Webhook change 'value' must be an object".toList
  | _ => .error "Webhook change must be an object".toList

/-- Embedding of `sanitize_phone_number` (webhook_security.py lines 171-204).
Note the source's `replace("+", "")` removes every plus sign, not only a
leading one, before the digit check. -/
def sanitize_phone_number (phone_number : List Char) : Except (List Char) (List Char) :=
  if phone_number = [] then .error "Invalid phone number format".toList
  else
    let sanitized := pyStrip phone_number
    if !(pyIsDigit (sanitized.filter (fun c => c ≠ '+'))) then
      .error "Phone number contains invalid characters".toList
    else
      let sanitized2 := if "+".toList.isPrefixOf sanitized then sanitized
        else '+' :: sanitized
      let digits_only := sanitized2.drop 1
      if digits_only.length < 7 ∨ digits_only.length > 15 then
        .error "Phone number length is invalid".toList
      else .ok sanitized2

/-- The record built by `extract_message_content`.  `content = .null`
models Python `None` (non-text messages). -/
structure Extracted where
  mid : JVal
  sender : List Char
  timestamp : JVal
  mtype : JVal
  content : JVal

/-- Sanitization of the raw `from` value, including the source's
`isinstance(phone_number, str)` guard. -/
def sanitize_jval : JVal → Except (List Char) (List Char)
  | .str s => sanitize_phone_number s.toList
  | _ => .error "Invalid phone number format".toList

/-- Embedding of `extract_message_content` (webhook_security.py lines 207-256). -/
def extract_message_content (message : JVal) : Except (List Char) Extracted :=
  match message with
  | .obj _ =>
    let mid := jgetD message "id" .null
    let mfrom := jgetD message "from" .null
    let mtype := jgetD message "type" (.str "unknown")
    if !(jtruthy mid) then .error "Message missing ID".toList
    else if !(jtruthy mfrom) then .error "Message missing sender information".toList
    else match sanitize_jval mfrom with
      | .error e => .error ("Invalid sender phone number: ".toList ++ e)
      | .ok sender =>
        let content :=
          if jIsStr mtype "text" then
            match jgetD message "text" (.obj []) with
            | .obj tfs => jgetD (.obj tfs) "body" (.str "")
            | _ => .str ""
          else .null
        .ok ⟨mid, sender, jgetD message "timestamp" .null, mtype, content⟩
  | _ => .error "Message must be an object".toList

/-! ## Dispatcher (`process_user_message`, whatsapp.py lines 367-438) -/

/-- The reply action `process_user_message` hands off to: either
`handle_text_message(from, text, ...)` (which generates an intelligent
response and sends it) or `handle_non_text_message(from, type, id, ...)`
(which sends a canned per-type acknowledgement). -/
inductive DispatchAction where
  | textMsg (dest : List Char) (text : JVal)
  | nonText (dest : List Char) (mtype : JVal) (mid : JVal)

/-- Recipient of the reply an action sends. -/
def DispatchAction.recipient : DispatchAction → List Char
  | .textMsg d _ => d
  | .nonText d _ _ => d

/-- Embedding of `process_user_message` (whatsapp.py lines 367-438).
`userSvc` models `UserService.process_user_message`; its outcome is
consumed by a catch-all `except` in the source, so the dispatch decision
never depends on it.  `.error` models the raised
`MessageProcessingError` on extraction failure. -/
def process_user_message (userSvc : List Char → Except (List Char) Unit)
    (message : JVal) : Except (List Char) DispatchAction :=
  match extract_message_content message with
  | .error e => .error ("Invalid message format: ".toList ++ e)
  | .ok ext =>
    -- user registration attempt; any exception is caught and processing continues
    match userSvc ext.sender with
    | _ =>
      if jtruthy ext.content && jIsStr ext.mtype "text" then
        .ok (.textMsg ext.sender ext.content)
      else
        .ok (.nonText ext.sender ext.mtype ext.mid)

/-- Embedding of `process_webhook_change` (whatsapp.py lines 314-364),
parametric in the per-message processing `processMsg` (whose `.error`
models any exception, caught per message).  The returned number is the
`processed_messages` counter; a change whose field tag is not
"messages" is skipped, processing no message. -/
def process_webhook_change (processMsg : JVal → Except (List Char) Unit)
    (change : JVal) : Except (List Char) Nat :=
  match validate_webhook_change change with
  | .error e => .error e
  | .ok _ =>
    if !(jIsStr (jgetD change "field" .null) "messages") then .ok 0
    else
      let value := jgetD change "value" (.obj [])
      let messages := match jget value "messages" with
        | some (.arr ms) => ms
        | _ => []
      .ok ((messages.map processMsg).countP (fun r => r.isOk))

/-! ## Delivery client (`send_message`, whatsapp.py lines 613-766) -/

/-- Outcome of the single `requests.post` call made by `send_message`:
either an HTTP response, or one of the transport-level exceptions the
source catches. -/
inductive NetOutcome where
  | resp (statusCode : Nat)
  | timeout
  | connError (msg : List Char)
  | requestError (msg : List Char)
  | otherExc (msg : List Char)

/-- The dictionary `send_message` returns.  Only the keys every claim in
scope reads are modelled: `success`, `error`, `error_type`,
`status_code`; `none` models an absent key. -/
structure SendDict where
  success : Bool
  error : Option (List Char)
  error_type : Option (List Char)
  status_code : Option Nat

/-- Classification of an HTTP response status by `send_message`
(whatsapp.py lines 687-744). -/
def classifyStatus (s : Nat) : SendDict :=
  if s = 200 then ⟨true, none, none, some 200⟩
  else if s = 401 then
    ⟨false, some "WhatsApp API authentication failed - check access token".toList,
      some "authentication".toList, some 401⟩
  else if s = 400 then
    ⟨false, some "Bad request to WhatsApp API".toList, some "bad_request".toList, some 400⟩
  else if s = 403 then
    ⟨false, some "WhatsApp API access forbidden - check permissions".toList,
      some "forbidden".toList, some 403⟩
  else if s = 429 then
    ⟨false, some "WhatsApp API rate limit exceeded".toList, some "rate_limit".toList, some 429⟩
  else if s ≥ 500 then
    ⟨false, some "WhatsApp API server error".toList, some "server_error".toList, some s⟩
  else
    ⟨false, some "Unexpected WhatsApp API response".toList, some "unexpected".toList, some s⟩

/-- Embedding of `send_message` (whatsapp.py lines 613-766).  `net` is
the outcome the network would produce if the request were issued.  The
second component records whether the request was actually issued; every
early-return validation/configuration path leaves it `false`. -/
def send_message (cfg : Config) (net : NetOutcome) (recipient msgText : List Char) :
    SendDict × Bool :=
  if recipient = [] ∨ pyStrip recipient = [] then
    (⟨false, some "Missing or invalid recipient phone number".toList,
      some "validation".toList, none⟩, false)
  else if msgText = [] ∨ pyStrip msgText = [] then
    (⟨false, some "Missing or invalid message content".toList,
      some "validation".toList, none⟩, false)
  else if cfg.WHATSAPP_ACCESS_TOKEN = [] ∨ cfg.WHATSAPP_PHONE_NUMBER_ID = [] then
    (⟨false, some "WhatsApp API credentials not configured".toList,
      some "configuration".toList, none⟩, false)
  else if (pyStrip msgText).length > 4096 then
    (⟨false, some "Message too long".toList, some "validation".toList, none⟩, false)
  else
    match net with
    | .resp s => (classifyStatus s, true)
    | .timeout =>
        (⟨false, some "WhatsApp API request timeout".toList, some "timeout".toList, none⟩, true)
    | .connError _ =>
        (⟨false, some "WhatsApp API connection error".toList, some "connection".toList, none⟩, true)
    | .requestError _ =>
        (⟨false, some "WhatsApp API request failed".toList, some "request".toList, none⟩, true)
    | .otherExc _ =>
        (⟨false, some "Unexpected error sending message".toList,
          some "unexpected".toList, none⟩, true)

/-! ## Retrying sender (`send_message_with_retry`, whatsapp.py lines 563-610) -/

/-- What one delivery attempt produces as seen by the retry loop: the
dictionary returned by `send_message`, or an exception escaping it. -/
inductive SendOutcome where
  | result (error : Option (List Char)) (statusCode : Option Nat)
  | exc (msg : List Char)

/-- Python truthiness of the `error` entry (`send_result.get("error")`):
absent, `None` and `""` are all falsy. -/
def errTruthy : Option (List Char) → Bool
  | none => false
  | some s => !s.isEmpty

/-- `error_code in [429, 500, 502, 503, 504]` with
`error_code = send_result.get("status_code")`. -/
def retryableCode : Option Nat → Bool
  | some c => c = 429 ∨ c = 500 ∨ c = 502 ∨ c = 503 ∨ c = 504
  | none => false

/-- Result dictionary of `send_message_with_retry`. -/
structure RetryResult where
  success : Bool
  error : Option (List Char)
  attempts : Nat
deriving DecidableEq

/-- The `for attempt in range(max_retries + 1)` loop of
`send_message_with_retry`; `rem` is the number of loop iterations left,
`attempt` the current index.  `send k` is the outcome of the delivery
attempt with index `k`. -/
def retryLoop (send : Nat → SendOutcome) (maxRetries : Nat) :
    Nat → Nat → RetryResult
  | _, 0 => ⟨false, some "Max retries exceeded".toList, maxRetries + 1⟩
  | attempt, rem + 1 =>
    match send attempt with
    | .result err code =>
      if !(errTruthy err) then ⟨true, none, attempt + 1⟩
      else if retryableCode code ∧ attempt < maxRetries then
        retryLoop send maxRetries (attempt + 1) rem
      else ⟨false, err, attempt + 1⟩
    | .exc m =>
      if attempt < maxRetries then retryLoop send maxRetries (attempt + 1) rem
      else ⟨false, some ("Exception after ".toList ++ Nat.toDigits 10 (attempt + 1) ++
        " attempts: ".toList ++ m), attempt + 1⟩

/-- Embedding of `send_message_with_retry` (whatsapp.py lines 563-610),
parametric in the per-attempt outcomes. -/
def send_message_with_retry (send : Nat → SendOutcome) (maxRetries : Nat) : RetryResult :=
  retryLoop send maxRetries 0 (maxRetries + 1)

/-! ## Webhook POST handler (`receive_message`, whatsapp.py lines 141-264) -/

/-- The transport-level response the caller of the webhook POST sees:
a `create_error_response` JSON error, the success dictionary, or the
response produced by the registered `WebhookValidationError` handler for
an exception that escaped the endpoint (error_handlers.py lines 153-180,
always HTTP 400). -/
inductive WebhookResponse where
  | errorResponse (errorCode : List Char) (statusCode : Nat)
  | okJson (processedEntries : Nat) (errors : List (List Char))
  | validationRaised (msg : List Char)
deriving DecidableEq

/-- HTTP status of a webhook response. -/
def WebhookResponse.status : WebhookResponse → Nat
  | .errorResponse _ s => s
  | .okJson _ _ => 200
  | .validationRaised _ => 400

/-- `body["entry"]` after structure validation. -/
def getEntries (body : JVal) : List JVal :=
  match jget body "entry" with
  | some (.arr xs) => xs
  | _ => []

/-- Per-entry outcomes of `process_webhook_entry` over the payload's
entries; `processEntry` models the (service- and network-dependent)
processing of one entry, `.error` being any exception it raises. -/
def entryResults (processEntry : JVal → Except (List Char) Unit) (body : JVal) :
    List (Except (List Char) Unit) :=
  (getEntries body).map processEntry

/-- `processed_entries` counter of the webhook loop. -/
def processedCount (processEntry : JVal → Except (List Char) Unit) (body : JVal) : Nat :=
  (entryResults processEntry body).countP (fun r => r.isOk)

/-- `processing_errors` list of the webhook loop. -/
def processingErrors (processEntry : JVal → Except (List Char) Unit) (body : JVal) :
    List (List Char) :=
  (entryResults processEntry body).filterMap (fun r =>
    match r with
    | .error e => some ("Entry processing failed: ".toList ++ e)
    | .ok _ => none)

/-- Embedding of the body of `receive_message` after signature
verification succeeded (whatsapp.py lines 176-236): JSON parsing, payload
structure validation, the entry loop, and the final status decision.
`parsed` is the result of `json.loads` on the raw payload (`none` models
a decode error). -/
def receive_after_verify (processEntry : JVal → Except (List Char) Unit)
    (rawPayload : List Nat) (parsed : Option JVal) : WebhookResponse :=
  if rawPayload = [] then .validationRaised "Empty webhook payload".toList
  else match parsed with
    | none => .validationRaised "Invalid JSON payload format".toList
    | some body =>
      match validate_webhook_payload_structure body with
      | .error _ => .errorResponse "WEBHOOK_PAYLOAD_INVALID".toList 400
      | .ok _ =>
        if !(processingErrors processEntry body).isEmpty ∧
            processedCount processEntry body = 0 then
          .errorResponse "WEBHOOK_PROCESSING_FAILED".toList 500
        else
          .okJson (processedCount processEntry body) (processingErrors processEntry body)

/-- Value of the `X-Hub-Signature-256` header as handed to the verifier:
`none` (absent header) becomes `""` via `x_hub_signature_256 or ""`. -/
def headerValue : Option (List Char) → List Char
  | some s => s
  | none => []

/-- Embedding of `receive_message` (whatsapp.py lines 141-264).
Signature verification failure — whether `False` or a raised format
error — is answered with the 401 error response built at lines 168-173. -/
def receive_message (cfg : Config) (processEntry : JVal → Except (List Char) Unit)
    (rawPayload : List Nat) (xHubSignature : Option (List Char))
    (parsed : Option JVal) : WebhookResponse :=
  match verify_webhook_signature cfg rawPayload (headerValue xHubSignature) none with
  | .ok true => receive_after_verify processEntry rawPayload parsed
  | .ok false => .errorResponse "WEBHOOK_SIGNATURE_INVALID".toList 401
  | .error _ => .errorResponse "WEBHOOK_SIGNATURE_INVALID".toList 401

/-! ## Broadcast coordinator (`broadcast_alert`, admin.py lines 59-156) -/

/-- A registered user as consumed by the broadcast loop (only the phone
number is read). -/
structure UserRec where
  phone_number : List Char

/-- Internal `BroadcastResult` model of admin.py lines 51-56. -/
structure BroadcastResult where
  phone_number : List Char
  success : Bool
  error_message : Option (List Char)

/-- `AlertResponse` model of admin.py lines 40-48 (the `message_id`
string is kept but irrelevant to the claims). -/
structure AlertResponse where
  success : Bool
  users_targeted : Nat
  successful_deliveries : Nat
  failed_deliveries : Nat
  message_id : List Char
  errors : Option (List (List Char))

/-- Embedding of `format_alert_message` (admin.py lines 198-226); the
priority glyphs are opaque strings here. -/
def format_alert_message (message : List Char) (priority : Option (List Char)) : List Char :=
  let p := match priority with
    | some s => if s = [] then "medium".toList else s
    | none => "medium".toList
  let label :=
    if p = "low".toList then "INFO".toList
    else if p = "medium".toList then "ALERT".toList
    else if p = "high".toList then "URGENT".toList
    else "ALERT".toList
  label ++ ": ".toList ++ message ++ "\n\nSIH Health Assistant".toList

/-- Embedding of `send_alert_to_user` (admin.py lines 167-195),
parametric in the delivery outcome for each phone number (the dictionary
`send_message` returns for it). -/
def send_alert_to_user (sendFn : List Char → SendDict) (phone message : List Char) :
    BroadcastResult :=
  let r := sendFn phone
  let _ := message
  if errTruthy r.error then ⟨phone, false, r.error⟩
  else ⟨phone, true, none⟩

/-- Embedding of `broadcast_alert` (admin.py lines 59-156).  `users` is
what `UserService.get_all_active_users()` returns, `hashFn` models
Python's `hash` on strings (only used for the message id). -/
def broadcast_alert (sendFn : List Char → SendDict) (hashFn : List Char → Nat)
    (users : List UserRec) (message : List Char) (priority : Option (List Char)) :
    AlertResponse :=
  let users_targeted := users.length
  if users_targeted = 0 then
    ⟨true, 0, 0, 0, "alert_".toList ++ Nat.toDigits 10 (hashFn message % 1000000), none⟩
  else
    let formatted := format_alert_message message priority
    let broadcast_results := users.map (fun u => send_alert_to_user sendFn u.phone_number formatted)
    let successful_deliveries := broadcast_results.countP (fun r => r.success)
    let failed_deliveries := users_targeted - successful_deliveries
    let errors := broadcast_results.filterMap (fun r =>
      match r.success, r.error_message with
      | false, some e => if !e.isEmpty then some (r.phone_number ++ ": ".toList ++ e) else none
      | _, _ => none)
    ⟨true, users_targeted, successful_deliveries, failed_deliveries,
      "alert_".toList ++ Nat.toDigits 10
        (hashFn (message ++ Nat.toDigits 10 users_targeted) % 1000000),
      if errors.isEmpty then none else some errors⟩

/-! ## Auxiliary predicates and concrete fixtures used in the theorems -/

/-- An outcome on which the retry loop takes another attempt when one is
left: a dictionary failure with retryable status, or an exception. -/
def continuesRetry : SendOutcome → Bool
  | .result err code => errTruthy err && retryableCode code
  | .exc _ => true

/-- A dictionary outcome with a truthy error and a retryable status
(what `send_message` hands back on a transient provider failure). -/
def dictRetryFailure : SendOutcome → Prop
  | .result err code => errTruthy err = true ∧ retryableCode code = true
  | .exc _ => False

/-- The `error` entry of a dictionary outcome. -/
def outcomeError : SendOutcome → Option (List Char)
  | .result e _ => e
  | .exc _ => none

/-- A production-like configuration with all credentials set. -/
def cfgProd : Config :=
  ⟨"secret".toList, "token".toList, "12345".toList, "production".toList⟩

/-- A configuration with verify token set but API credentials missing. -/
def cfgNoCreds : Config :=
  ⟨"secret".toList, [], [], "production".toList⟩

/-- A configuration with no verify token configured (verification is
bypassed) but API credentials present. -/
def cfgOpen : Config :=
  ⟨[], "token".toList, "12345".toList, "production".toList⟩

/-- A structurally valid webhook body with two entries. -/
def bodyTwoEntries : JVal :=
  .obj [("object", .str "whatsapp_business_account"),
        ("entry", .arr [.obj [("id", .str "e1"), ("changes", .arr [])],
                        .obj [("id", .str "e2"), ("changes", .arr [])]])]

/-- A well-formed text message whose `text.body` is the empty string. -/
def msgEmptyText : JVal :=
  .obj [("id", .str "wamid.1"), ("from", .str "1234567"),
        ("type", .str "text"), ("text", .obj [("body", .str "")])]

/-- A well-formed text message with body "hello". -/
def msgHello : JVal :=
  .obj [("id", .str "wamid.2"), ("from", .str "1234567"),
        ("type", .str "text"), ("text", .obj [("body", .str "hello")])]

/-! ## Theorems for the claims -/

/-- C10: whenever no webhook secret is configured, or the environment is
"development", `verify_webhook_signature` returns true for every payload
and every signature header — including an empty header and one lacking
the "sha256=" prefix — and never raises. -/
theorem C10_verify_bypass (cfg : Config) (payload : List Nat) (signature : List Char)
    (h : cfg.WHATSAPP_VERIFY_TOKEN = [] ∨ cfg.ENVIRONMENT = "development".toList) :
    verify_webhook_signature cfg payload signature none = .ok true := by
  unfold verify_webhook_signature
  rcases h with h | h
  · simp [h]
  · by_cases ht : cfg.WHATSAPP_VERIFY_TOKEN = []
    · simp [ht]
    · simp [ht, h]

/-- Witness for C10: concrete bypasses, with a missing secret and a
garbage header, and with development mode and an absent header. -/
theorem C10_verify_bypass_witness :
    verify_webhook_signature ⟨[], [], [], "production".toList⟩ [1, 2, 3]
      "garbage".toList none = .ok true ∧
    verify_webhook_signature ⟨"tok".toList, [], [], "development".toList⟩ [1]
      [] none = .ok true :=
  ⟨C10_verify_bypass _ [1, 2, 3] _ (Or.inl rfl),
   C10_verify_bypass _ [1] _ (Or.inr rfl)⟩

/-- C1 counterexample: with a configured secret but the environment set
to "development", a header computed as the genuine signature of a
different body still verifies as true, so "for any body differing in at
least one byte ... verification returns false" fails as stated. -/
theorem C1_counterexample :
    verify_webhook_signature ⟨"tok".toList, [], [], "development".toList⟩ [1, 2, 3]
      ("sha256=".toList ++
        SHA256.hexdigest (SHA256.hmacSha256 (utf8Encode "tok".toList) [9, 9, 9]))
      none = .ok true ∧ ([1, 2, 3] : List Nat) ≠ [9, 9, 9] := by
  exact ⟨rfl, by decide⟩

/-- C1 (amended): with a non-empty secret and a non-"development"
environment, the header "sha256=" ++ hex HMAC-SHA256 of the body under
that secret verifies as true, and any header carrying the "sha256="
prefix whose hash portion differs from that digest verifies as false. -/
theorem C1_verify_roundtrip (cfg : Config) (s : List Char) (payload : List Nat)
    (hdr : List Char) (hs : s ≠ []) (henv : cfg.ENVIRONMENT ≠ "development".toList) :
    verify_webhook_signature cfg payload
      ("sha256=".toList ++
        SHA256.hexdigest (SHA256.hmacSha256 (utf8Encode s) payload)) (some s) = .ok true ∧
    ("sha256=".toList.isPrefixOf hdr = true →
      hdr.drop 7 ≠ SHA256.hexdigest (SHA256.hmacSha256 (utf8Encode s) payload) →
      verify_webhook_signature cfg payload hdr (some s) = .ok false) := by
  constructor
  · unfold verify_webhook_signature
    simp only [if_neg hs, if_neg henv]
    rw [if_neg (by simp [String.toList])]
    rw [if_neg (by simp [String.toList])]
    rw [List.drop_left' (by rfl)]
    simp
  · intro hpre hne
    obtain ⟨t, ht⟩ := List.isPrefixOf_iff_prefix.mp hpre
    unfold verify_webhook_signature
    simp only [if_neg hs, if_neg henv]
    rw [if_neg (by rw [← ht]; simp [String.toList])]
    rw [if_neg (by simp only [hpre]; simp)]
    have hb : (SHA256.hexdigest (SHA256.hmacSha256 (utf8Encode s) payload)
        == hdr.drop 7) = false :=
      beq_eq_false_iff_ne.mpr (fun h => hne h.symm)
    rw [hb]

/-- Witness for C1: the round-trip theorem applied at a concrete secret,
body and mismatching header. -/
theorem C1_verify_roundtrip_witness :
    verify_webhook_signature ⟨[], [], [], "production".toList⟩ [10, 20]
      ("sha256=".toList ++
        SHA256.hexdigest (SHA256.hmacSha256 (utf8Encode "sek".toList) [10, 20]))
      (some "sek".toList) = .ok true ∧
    verify_webhook_signature ⟨[], [], [], "production".toList⟩ [10, 20]
      "sha256=deadbeef".toList (some "sek".toList) = .ok false := by
  refine ⟨(C1_verify_roundtrip _ _ _ [] (by decide) (by decide)).1, ?_⟩
  exact (C1_verify_roundtrip ⟨[], [], [], "production".toList⟩ "sek".toList [10, 20]
    "sha256=deadbeef".toList (by decide) (by decide)).2 (by decide) (by decide)

/-! ### Lemmas about `pyStrip` -/

theorem dropWhile_dropWhile (p : Char → Bool) (l : List Char) :
    (l.dropWhile p).dropWhile p = l.dropWhile p := by
  induction l with
  | nil => rfl
  | cons a t ih =>
    by_cases h : p a
    · rw [List.dropWhile_cons_of_pos h]; exact ih
    · rw [List.dropWhile_cons_of_neg h, List.dropWhile_cons_of_neg h]

theorem head_not_of_dropWhile_self (p : Char → Bool) (a : Char) (t : List Char)
    (h : (a :: t).dropWhile p = a :: t) : p a = false := by
  by_cases ha : p a
  · rw [List.dropWhile_cons_of_pos ha] at h
    have h1 : (t.dropWhile p).length ≤ t.length := (List.dropWhile_sublist p).length_le
    have h2 := congrArg List.length h
    simp at h2
    omega
  · exact Bool.eq_false_iff.mpr ha

theorem dropWhile_append_eq (p : Char → Bool) (l r : List Char)
    (hl : l.dropWhile p = l) (hr : r.dropWhile p = r) :
    (l ++ r).dropWhile p = l ++ r := by
  cases l with
  | nil => simpa using hr
  | cons a t =>
    have ha := head_not_of_dropWhile_self p a t hl
    rw [List.cons_append, List.dropWhile_cons_of_neg (by simp [ha])]

theorem pyStrip_reverse_dropWhile (x : List Char) :
    (pyStrip x).reverse.dropWhile Char.isWhitespace = (pyStrip x).reverse := by
  unfold pyStrip
  rw [List.reverse_reverse]
  exact dropWhile_dropWhile _ _

/-- After one pass of the sanitizer, a second `strip()` is the identity:
the output starts with a non-whitespace character and its trailing
whitespace was already removed. -/
theorem pyStrip_plusCons (s : List Char) (hs : s.reverse.dropWhile Char.isWhitespace = s.reverse) :
    pyStrip ('+' :: s) = '+' :: s := by
  unfold pyStrip
  rw [List.dropWhile_cons_of_neg (by decide)]
  rw [List.reverse_cons]
  rw [dropWhile_append_eq _ _ _ hs (by decide)]
  rw [List.reverse_append]
  simp

/-! ### C5: phone-number canonicalization -/

/-- C5 counterexample: the input "1+234567" contains a plus sign in a
non-leading position (a non-digit other than a single leading
separator), yet `sanitize_phone_number` accepts it — the source removes
every "+" before its digit check — instead of rejecting it with a
validation error. -/
theorem C5_counterexample :
    sanitize_phone_number "1+234567".toList = .ok "+1+234567".toList ∧
    (pyStrip "1+234567".toList).get? 1 = some '+' ∧ ('+'.isDigit = false) := by
  refine ⟨rfl, rfl, by decide⟩

theorem pyStrip_eq_self_of (s : List Char)
    (hhead : s.dropWhile Char.isWhitespace = s)
    (htail : s.reverse.dropWhile Char.isWhitespace = s.reverse) :
    pyStrip s = s := by
  unfold pyStrip
  rw [hhead, htail, List.reverse_reverse]

/-- C5 (amended): canonicalization is idempotent on every accepted
input; and every input containing (after trimming) a character that is
neither a digit nor a plus sign — in any position, with any number of
plus signs tolerated — is rejected with a validation error. -/
theorem C5_sanitize_idempotent (x y z : List Char) (c : Char) :
    (sanitize_phone_number x = .ok y → sanitize_phone_number y = .ok y) ∧
    (c ∈ pyStrip z → c.isDigit = false → c ≠ '+' →
      ∃ e, sanitize_phone_number z = .error e) := by
  constructor
  · intro hxy
    simp only [sanitize_phone_number] at hxy
    by_cases h1 : x = []
    · rw [if_pos h1] at hxy
      exact absurd hxy (by simp)
    rw [if_neg h1] at hxy
    by_cases h2 : (!(pyIsDigit ((pyStrip x).filter (fun c => c ≠ '+')))) = true
    · rw [if_pos h2] at hxy
      exact absurd hxy (by simp)
    rw [if_neg h2] at hxy
    have h2' : pyIsDigit ((pyStrip x).filter (fun c => c ≠ '+')) = true := by
      cases hb : pyIsDigit ((pyStrip x).filter (fun c => c ≠ '+'))
      · exact absurd (by rw [hb]; rfl) h2
      · rfl
    have htail : (pyStrip x).reverse.dropWhile Char.isWhitespace = (pyStrip x).reverse :=
      pyStrip_reverse_dropWhile x
    by_cases hpre : ("+".toList.isPrefixOf (pyStrip x)) = true
    · -- the trimmed input already starts with '+': output is the input itself
      rw [if_pos hpre] at hxy
      obtain ⟨t, ht⟩ := List.isPrefixOf_iff_prefix.mp hpre
      have ht' : pyStrip x = '+' :: t := by rw [← ht]; rfl
      by_cases h3 : ((pyStrip x).drop 1).length < 7 ∨ ((pyStrip x).drop 1).length > 15
      · rw [if_pos h3] at hxy
        exact absurd hxy (by simp)
      rw [if_neg h3, Except.ok.injEq] at hxy
      subst hxy
      have hps : pyStrip (pyStrip x) = pyStrip x := by
        refine pyStrip_eq_self_of _ ?_ htail
        rw [ht', List.dropWhile_cons_of_neg (by decide)]
      simp only [sanitize_phone_number]
      rw [if_neg (by rw [ht']; simp)]
      rw [hps]
      rw [if_neg h2]
      rw [if_pos hpre]
      rw [if_neg h3]
    · -- a '+' is prepended: output is '+' :: trimmed input
      rw [if_neg hpre] at hxy
      by_cases h3 : (('+' :: pyStrip x).drop 1).length < 7 ∨
          (('+' :: pyStrip x).drop 1).length > 15
      · rw [if_pos h3] at hxy
        exact absurd hxy (by simp)
      rw [if_neg h3, Except.ok.injEq] at hxy
      subst hxy
      have hps : pyStrip ('+' :: pyStrip x) = '+' :: pyStrip x :=
        pyStrip_plusCons (pyStrip x) htail
      simp only [sanitize_phone_number]
      rw [if_neg (by simp)]
      rw [hps]
      have hfil : ('+' :: pyStrip x).filter (fun c => c ≠ '+') =
          (pyStrip x).filter (fun c => c ≠ '+') := by
        rw [List.filter_cons]
        simp
      rw [hfil]
      rw [if_neg h2]
      rw [if_pos (show ("+".toList.isPrefixOf ('+' :: pyStrip x)) = true from
        List.isPrefixOf_iff_prefix.mpr ⟨pyStrip x, rfl⟩)]
      rw [if_neg h3]
  · intro hc hcd hcp
    simp only [sanitize_phone_number]
    by_cases h1 : z = []
    · exact ⟨_, by rw [if_pos h1]⟩
    · have hmem : c ∈ (pyStrip z).filter (fun c => c ≠ '+') :=
        List.mem_filter.mpr ⟨hc, by simpa using hcp⟩
      have hall : ((pyStrip z).filter (fun c => c ≠ '+')).all Char.isDigit = false := by
        by_contra hba
        rw [Bool.not_eq_false] at hba
        have := List.all_eq_true.mp hba c hmem
        rw [hcd] at this
        exact absurd this (by simp)
      have hpd : pyIsDigit ((pyStrip z).filter (fun c => c ≠ '+')) = false := by
        unfold pyIsDigit
        rw [hall]
        simp
      refine ⟨"Phone number contains invalid characters".toList, ?_⟩
      rw [if_neg h1,
        if_pos (show (!(pyIsDigit ((pyStrip z).filter (fun c => c ≠ '+')))) = true by
          rw [hpd]; rfl)]

/-- Witness for C5: idempotence at a concrete accepted input, and
rejection of a concrete input containing a letter. -/
theorem C5_sanitize_idempotent_witness :
    sanitize_phone_number "+1+234567".toList = .ok "+1+234567".toList ∧
    ∃ e, sanitize_phone_number "12a34567".toList = .error e := by
  constructor
  · exact (C5_sanitize_idempotent "1+234567".toList "+1+234567".toList [] 'a').1 rfl
  · exact (C5_sanitize_idempotent [] [] "12a34567".toList 'a').2
      (by decide) (by decide) (by decide)

/-! ### C2: the retrying sender -/

theorem retryLoop_attempts_le (send : Nat → SendOutcome) (maxRetries : Nat) :
    ∀ rem attempt, attempt + rem = maxRetries + 1 →
      (retryLoop send maxRetries attempt rem).attempts ≤ maxRetries + 1 := by
  intro rem
  induction rem with
  | zero =>
    intro attempt h
    simp [retryLoop]
  | succ n ih =>
    intro attempt h
    have hle : attempt + 1 ≤ maxRetries + 1 := by omega
    simp only [retryLoop]
    cases hs : send attempt with
    | result err code =>
      dsimp only
      by_cases he : errTruthy err
      · rw [if_neg (by simp [he])]
        by_cases hr : retryableCode code ∧ attempt < maxRetries
        · rw [if_pos hr]
          exact ih (attempt + 1) (by omega)
        · rw [if_neg hr]
          exact hle
      · rw [if_pos (by simp [Bool.eq_false_iff.mpr he])]
        exact hle
    | exc m =>
      dsimp only
      by_cases hm : attempt < maxRetries
      · rw [if_pos hm]
        exact ih (attempt + 1) (by omega)
      · rw [if_neg hm]
        exact hle

theorem retryLoop_stops_nonretryable (send : Nat → SendOutcome) (maxRetries k : Nat)
    (err : Option (List Char)) (code : Option Nat) (hk : k ≤ maxRetries)
    (hcont : ∀ j, j < k → continuesRetry (send j) = true)
    (hsend : send k = .result err code) (herr : errTruthy err = true)
    (hnr : retryableCode code = false) :
    ∀ rem attempt, attempt + rem = maxRetries + 1 → attempt ≤ k →
      retryLoop send maxRetries attempt rem = ⟨false, err, k + 1⟩ := by
  intro rem
  induction rem with
  | zero =>
    intro attempt h hak
    omega
  | succ n ih =>
    intro attempt h hak
    by_cases hek : attempt = k
    · subst hek
      simp only [retryLoop, hsend]
      rw [if_neg (by simp [herr])]
      rw [if_neg (by simp [hnr])]
    · have hlt : attempt < k := lt_of_le_of_ne hak hek
      have hc := hcont attempt hlt
      simp only [retryLoop]
      cases hs : send attempt with
      | result e c =>
        dsimp only
        rw [hs] at hc
        simp only [continuesRetry, Bool.and_eq_true] at hc
        rw [if_neg (by simp [hc.1])]
        rw [if_pos ⟨hc.2, by omega⟩]
        exact ih (attempt + 1) (by omega) (by omega)
      | exc m =>
        dsimp only
        rw [if_pos (show attempt < maxRetries by omega)]
        exact ih (attempt + 1) (by omega) (by omega)

theorem retryLoop_exhaust (send : Nat → SendOutcome) (maxRetries : Nat)
    (hall : ∀ j, j ≤ maxRetries → dictRetryFailure (send j)) :
    ∀ rem attempt, attempt + rem = maxRetries + 1 → attempt ≤ maxRetries →
      retryLoop send maxRetries attempt rem =
        ⟨false, outcomeError (send maxRetries), maxRetries + 1⟩ := by
  intro rem
  induction rem with
  | zero =>
    intro attempt h ha
    omega
  | succ n ih =>
    intro attempt h ha
    have hd := hall attempt ha
    simp only [retryLoop]
    cases hs : send attempt with
    | exc m =>
      dsimp only
      rw [hs] at hd
      exact absurd hd (by simp [dictRetryFailure])
    | result e c =>
      dsimp only
      rw [hs] at hd
      obtain ⟨he, hr⟩ := hd
      rw [if_neg (by simp [he])]
      by_cases hm : attempt = maxRetries
      · rw [if_neg (by simp [hm])]
        subst hm
        rw [hs]
        rfl
      · rw [if_pos ⟨hr, by omega⟩]
        exact ih (attempt + 1) (by omega) (by omega)

/-- C2: `send_message_with_retry` makes at most `maxRetries + 1`
attempts; the first dictionary failure whose HTTP status is outside
{429, 500, 502, 503, 504} stops it immediately, the result carrying that
attempt's error and its attempt count; and when every attempt up to
`maxRetries` is a retryable failure, the result carries the last
attempt's own error together with `maxRetries + 1` attempts — not a
synthetic generic error.  (`send_message` returns a dictionary on every
path, so delivery attempts are `.result` outcomes.) -/
theorem C2_retry_invariants (send : Nat → SendOutcome) (maxRetries : Nat) :
    ((send_message_with_retry send maxRetries).attempts ≤ maxRetries + 1) ∧
    (∀ k err code, k ≤ maxRetries →
      (∀ j, j < k → continuesRetry (send j) = true) →
      send k = .result err code → errTruthy err = true → retryableCode code = false →
      send_message_with_retry send maxRetries = ⟨false, err, k + 1⟩) ∧
    ((∀ j, j ≤ maxRetries → dictRetryFailure (send j)) →
      send_message_with_retry send maxRetries =
        ⟨false, outcomeError (send maxRetries), maxRetries + 1⟩) := by
  refine ⟨?_, ?_, ?_⟩
  · exact retryLoop_attempts_le send maxRetries (maxRetries + 1) 0 (by omega)
  · intro k err code hk hcont hsend herr hnr
    exact retryLoop_stops_nonretryable send maxRetries k err code hk hcont hsend herr hnr
      (maxRetries + 1) 0 (by omega) (by omega)
  · intro hall
    exact retryLoop_exhaust send maxRetries hall (maxRetries + 1) 0 (by omega) (by omega)

/-- Witness for C2: a non-retryable 400 failure on the first attempt
stops a 2-retry sender after one attempt with that error, and a run of
500 failures exhausts all three attempts carrying the last error. -/
theorem C2_retry_invariants_witness :
    send_message_with_retry (fun _ => .result (some "bad request".toList) (some 400)) 2 =
      ⟨false, some "bad request".toList, 1⟩ ∧
    send_message_with_retry (fun _ => .result (some "server error".toList) (some 500)) 2 =
      ⟨false, some "server error".toList, 3⟩ := by
  constructor
  · exact (C2_retry_invariants (fun _ => .result (some "bad request".toList) (some 400)) 2).2.1
      0 (some "bad request".toList) (some 400) (by omega)
      (fun j hj => absurd hj (Nat.not_lt_zero j)) rfl (by decide) (by decide)
  · exact (C2_retry_invariants (fun _ => .result (some "server error".toList) (some 500)) 2).2.2
      (fun j _ => ⟨by decide, by decide⟩)

/-! ### C4: the broadcast coordinator -/

/-- C4: every `broadcast_alert` summary satisfies
`successful_deliveries + failed_deliveries = users_targeted`, where
`users_targeted` is the number of active users; the call reports
success, and with zero recipients it still succeeds with
`users_targeted = 0` rather than erroring. -/
theorem C4_broadcast_invariant (sendFn : List Char → SendDict) (hashFn : List Char → Nat)
    (users : List UserRec) (message : List Char) (priority : Option (List Char)) :
    (broadcast_alert sendFn hashFn users message priority).successful_deliveries +
      (broadcast_alert sendFn hashFn users message priority).failed_deliveries =
      (broadcast_alert sendFn hashFn users message priority).users_targeted ∧
    (broadcast_alert sendFn hashFn users message priority).users_targeted = users.length ∧
    (broadcast_alert sendFn hashFn users message priority).success = true ∧
    (users = [] →
      (broadcast_alert sendFn hashFn users message priority).users_targeted = 0) := by
  simp only [broadcast_alert]
  by_cases hu : users.length = 0
  · rw [if_pos hu]
    exact ⟨rfl, hu.symm, rfl, fun _ => rfl⟩
  · rw [if_neg hu]
    refine ⟨?_, rfl, rfl, fun he => absurd (by rw [he]; rfl) hu⟩
    have hle : (users.map (fun u =>
        send_alert_to_user sendFn u.phone_number
          (format_alert_message message priority))).countP (fun r => r.success) ≤
        users.length := by
      calc _ ≤ (users.map (fun u =>
            send_alert_to_user sendFn u.phone_number
              (format_alert_message message priority))).length := List.countP_le_length _
        _ = users.length := List.length_map _ _
    exact Nat.add_sub_cancel' hle

/-- Witness for C4: the zero-recipient branch of the invariant at a
concrete call. -/
theorem C4_broadcast_invariant_witness :
    (broadcast_alert (fun _ => ⟨true, none, none, some 200⟩) (fun _ => 0)
      [] "flood warning".toList none).users_targeted = 0 ∧
    (broadcast_alert (fun _ => ⟨true, none, none, some 200⟩) (fun _ => 0)
      [] "flood warning".toList none).success = true := by
  refine ⟨(C4_broadcast_invariant _ _ [] _ none).2.2.2 rfl,
    (C4_broadcast_invariant _ _ [] _ none).2.2.1⟩

/-! ### C6: payload structure validation and non-message changes -/

theorem validate_ok_entries (p : JVal)
    (h : validate_webhook_payload_structure p = .ok ()) :
    ∃ es, jget p "entry" = some (.arr es) ∧ es ≠ [] := by
  cases p with
  | obj fs =>
    simp only [validate_webhook_payload_structure] at h
    by_cases h1 : (alistGet "object" fs).isNone
    · rw [if_pos h1] at h
      exact absurd h (by simp)
    rw [if_neg h1] at h
    by_cases h2 : (!jIsStr (jgetD (JVal.obj fs) "object" JVal.null)
        "whatsapp_business_account") = true
    · rw [if_pos h2] at h
      exact absurd h (by simp)
    rw [if_neg h2] at h
    cases hent : alistGet "entry" fs with
    | none =>
      rw [hent] at h
      exact absurd h (by simp)
    | some v =>
      rw [hent] at h
      cases v with
      | arr es =>
        dsimp only at h
        by_cases h3 : es.isEmpty
        · rw [if_pos h3] at h
          · exact absurd h (by simp)
        · rw [if_neg h3] at h
          refine ⟨es, by simp [jget, hent], fun hnil => h3 (by simp [hnil])⟩
      | null => exact absurd h (by simp)
      | bool b => exact absurd h (by simp)
      | num n => exact absurd h (by simp)
      | str s => exact absurd h (by simp)
      | obj fs2 => exact absurd h (by simp)
  | null => exact absurd h (by simp [validate_webhook_payload_structure])
  | bool b => exact absurd h (by simp [validate_webhook_payload_structure])
  | num n => exact absurd h (by simp [validate_webhook_payload_structure])
  | str s => exact absurd h (by simp [validate_webhook_payload_structure])
  | arr xs => exact absurd h (by simp [validate_webhook_payload_structure])

/-- C6: every payload missing the entry sequence, or with an empty entry
sequence, is rejected by structure validation with a structural error;
and every correctly-shaped change whose field tag is not "messages"
passes change validation and is skipped, processing no message, whatever
the message processor would do. -/
theorem C6_structure_validation (p : JVal) (pm : JVal → Except (List Char) Unit)
    (fs : List (String × JVal)) (v : JVal) (f : String) :
    ((jget p "entry" = none ∨ jget p "entry" = some (.arr [])) →
      ∃ e, validate_webhook_payload_structure p = .error e) ∧
    (alistGet "value" fs = some v → alistGet "field" fs = some (.str f) →
      f ≠ "messages" →
      validate_webhook_change (.obj fs) = .ok () ∧
      process_webhook_change pm (.obj fs) = .ok 0) := by
  constructor
  · intro hyp
    cases hval : validate_webhook_payload_structure p with
    | error e => exact ⟨e, rfl⟩
    | ok u =>
      cases u
      obtain ⟨es, hes, hne⟩ := validate_ok_entries p hval
      rcases hyp with hyp | hyp
      · rw [hyp] at hes
        exact absurd hes (by simp)
      · rw [hyp] at hes
        simp only [Option.some.injEq, JVal.arr.injEq] at hes
        exact (hne hes.symm).elim
  · intro hv hf hfm
    have hfield : jgetD (JVal.obj fs) "field" JVal.null = .str f := by
      simp [jgetD, jget, hf]
    have hmsg : jIsStr (JVal.str f) "messages" = false := by
      simp only [jIsStr]
      exact beq_eq_false_iff_ne.mpr hfm
    have hcond : (!jIsStr (jgetD (JVal.obj fs) "field" JVal.null) "messages") = true := by
      rw [hfield, hmsg]
      rfl
    have hvc : validate_webhook_change (.obj fs) = .ok () := by
      simp only [validate_webhook_change]
      rw [if_neg (by simp [hv])]
      rw [if_neg (by simp [hf])]
      rw [if_pos hcond]
    refine ⟨hvc, ?_⟩
    simp only [process_webhook_change]
    rw [hvc]
    dsimp only
    rw [if_pos hcond]

/-- Witness for C6: a payload with an empty entry array is rejected, and
a well-shaped "statuses" change passes validation and is skipped. -/
theorem C6_structure_validation_witness :
    (∃ e, validate_webhook_payload_structure
      (.obj [("object", .str "whatsapp_business_account"), ("entry", .arr [])]) = .error e) ∧
    validate_webhook_change (.obj [("value", .obj []), ("field", .str "statuses")]) = .ok () ∧
    process_webhook_change (fun _ => .error "boom".toList)
      (.obj [("value", .obj []), ("field", .str "statuses")]) = .ok 0 := by
  refine ⟨(C6_structure_validation
      (.obj [("object", .str "whatsapp_business_account"), ("entry", .arr [])])
      (fun _ => .error "boom".toList) [("value", .obj []), ("field", .str "statuses")]
      (.obj []) "statuses").1 (Or.inr rfl), ?_, ?_⟩
  · exact ((C6_structure_validation (.obj []) (fun _ => .error "boom".toList)
      [("value", .obj []), ("field", .str "statuses")] (.obj []) "statuses").2
      rfl rfl (by decide)).1
  · exact ((C6_structure_validation (.obj []) (fun _ => .error "boom".toList)
      [("value", .obj []), ("field", .str "statuses")] (.obj []) "statuses").2
      rfl rfl (by decide)).2

/-! ### C7: empty text bodies and the dispatch decision -/

/-- C7 counterexample: for a text message with an empty body, extraction
does yield the empty string, but the dispatcher routes the message to the
non-text handler (`handle_non_text_message`) because of the
`if message_text and message_type == "text"` guard — it does not invoke
response generation with the empty string as the claim states. -/
theorem C7_counterexample :
    extract_message_content msgEmptyText =
      .ok ⟨.str "wamid.1", "+1234567".toList, .null, .str "text", .str ""⟩ ∧
    process_user_message (fun _ => .ok ()) msgEmptyText =
      .ok (.nonText "+1234567".toList (.str "text") (.str "wamid.1")) ∧
    process_user_message (fun _ => .ok ()) msgEmptyText ≠
      .ok (.textMsg "+1234567".toList (.str "")) := by
  refine ⟨rfl, rfl, ?_⟩
  intro h
  rw [show process_user_message (fun _ => .ok ()) msgEmptyText =
    .ok (.nonText "+1234567".toList (.str "text") (.str "wamid.1")) from rfl] at h
  simp at h

/-- C7 (amended): for an inbound message of type "text" whose text body
is the empty string or structurally absent, extraction succeeds with the
empty string as content (never null, not an error); the dispatcher then
routes the message to the non-text handler rather than invoking
text-response generation with the empty string. -/
theorem C7_empty_text (userSvc : List Char → Except (List Char) Unit)
    (fs : List (String × JVal)) (f : String) (sender : List Char)
    (hid : jtruthy (jgetD (JVal.obj fs) "id" .null) = true)
    (hfrom : jget (JVal.obj fs) "from" = some (.str f))
    (hsan : sanitize_phone_number f.toList = .ok sender)
    (htype : jgetD (JVal.obj fs) "type" (.str "unknown") = .str "text")
    (hbody : match jget (JVal.obj fs) "text" with
      | some (.obj tfs) =>
          alistGet "body" tfs = none ∨ alistGet "body" tfs = some (.str "")
      | some _ => True
      | none => True) :
    extract_message_content (JVal.obj fs) =
      .ok ⟨jgetD (JVal.obj fs) "id" .null, sender,
        jgetD (JVal.obj fs) "timestamp" .null, .str "text", .str ""⟩ ∧
    process_user_message userSvc (JVal.obj fs) =
      .ok (.nonText sender (.str "text") (jgetD (JVal.obj fs) "id" .null)) := by
  have hfne : f.toList ≠ [] := by
    intro h0
    rw [sanitize_phone_number, if_pos h0] at hsan
    exact absurd hsan (by simp)
  have hftruthy : jtruthy (jgetD (JVal.obj fs) "from" .null) = true := by
    rw [jgetD, hfrom]
    simp only [jtruthy, Bool.not_eq_true']
    rw [Bool.eq_false_iff]
    intro hemp
    rw [String.isEmpty_iff] at hemp
    exact hfne (by rw [hemp]; rfl)
  have hcontent :
      (if jIsStr (jgetD (JVal.obj fs) "type" (.str "unknown")) "text" = true then
        match jgetD (JVal.obj fs) "text" (.obj []) with
        | .obj tfs => jgetD (.obj tfs) "body" (.str "")
        | _ => .str ""
      else JVal.null) = .str "" := by
    rw [if_pos (by rw [htype]; rfl)]
    rw [jgetD]
    cases htext : jget (JVal.obj fs) "text" with
    | none =>
      dsimp only
      rfl
    | some v =>
      rw [htext] at hbody
      cases v with
      | obj tfs =>
        dsimp only
        rcases hbody with hb | hb <;> simp [jgetD, jget, hb]
      | null => rfl
      | bool b => rfl
      | num n => rfl
      | str s => rfl
      | arr xs => rfl
  have hext : extract_message_content (JVal.obj fs) =
      .ok ⟨jgetD (JVal.obj fs) "id" .null, sender,
        jgetD (JVal.obj fs) "timestamp" .null, jgetD (JVal.obj fs) "type" (.str "unknown"),
        .str ""⟩ := by
    simp only [extract_message_content]
    rw [if_neg (by rw [hid]; simp)]
    rw [if_neg (by rw [hftruthy]; simp)]
    rw [show sanitize_jval (jgetD (JVal.obj fs) "from" .null) = .ok sender by
      rw [jgetD, hfrom]; exact hsan]
    dsimp only
    rw [hcontent]
  have hguard : ¬((jtruthy (JVal.str "") &&
      jIsStr (jgetD (JVal.obj fs) "type" (JVal.str "unknown")) "text") = true) := by
    rw [show jtruthy (JVal.str "") = false by decide, Bool.false_and]
    simp
  refine ⟨by rw [hext, htype], ?_⟩
  simp only [process_user_message]
  rw [hext]
  dsimp only
  cases userSvc sender with
  | error e =>
    rw [if_neg hguard]
    rw [htype]
  | ok u =>
    rw [if_neg hguard]
    rw [htype]

/-- Witness for C7: the amended theorem applied to the concrete
empty-body message. -/
theorem C7_empty_text_witness :
    extract_message_content msgEmptyText =
      .ok ⟨.str "wamid.1", "+1234567".toList, .null, .str "text", .str ""⟩ ∧
    process_user_message (fun _ => .error "db down".toList) msgEmptyText =
      .ok (.nonText "+1234567".toList (.str "text") (.str "wamid.1")) := by
  have h := C7_empty_text (fun _ => .error "db down".toList)
    [("id", .str "wamid.1"), ("from", .str "1234567"),
     ("type", .str "text"), ("text", .obj [("body", .str "")])]
    "1234567" "+1234567".toList rfl rfl rfl rfl (Or.inr rfl)
  exact h

/-! ### C9: registry failures never suppress the reply -/

/-- C9: when extraction succeeds, the dispatch outcome of
`process_user_message` is the same whatever the user-registry update
does — in particular when it raises — and the dispatcher still hands a
reply action addressed to the extracted sender to the sending pipeline. -/
theorem C9_registry_failure_no_suppression
    (userSvc : List Char → Except (List Char) Unit) (m : JVal) (ext : Extracted)
    (hex : extract_message_content m = .ok ext) :
    process_user_message userSvc m = process_user_message (fun _ => .ok ()) m ∧
    ∃ a : DispatchAction, process_user_message userSvc m = .ok a ∧
      a.recipient = ext.sender := by
  have hval : ∀ svc : List Char → Except (List Char) Unit,
      process_user_message svc m =
        (if jtruthy ext.content && jIsStr ext.mtype "text" then
          .ok (.textMsg ext.sender ext.content)
        else .ok (.nonText ext.sender ext.mtype ext.mid)) := by
    intro svc
    simp only [process_user_message]
    rw [hex]
  refine ⟨by rw [hval userSvc, hval (fun _ => .ok ())], ?_⟩
  rw [hval userSvc]
  by_cases hc : jtruthy ext.content && jIsStr ext.mtype "text"
  · rw [if_pos hc]
    exact ⟨.textMsg ext.sender ext.content, rfl, rfl⟩
  · rw [if_neg hc]
    exact ⟨.nonText ext.sender ext.mtype ext.mid, rfl, rfl⟩

/-- Witness for C9: a failing registry produces the same reply action as
a healthy one for a concrete "hello" message. -/
theorem C9_registry_failure_witness :
    process_user_message (fun _ => .error "db down".toList) msgHello =
      process_user_message (fun _ => .ok ()) msgHello ∧
    ∃ a : DispatchAction,
      process_user_message (fun _ => .error "db down".toList) msgHello = .ok a ∧
      a.recipient = "+1234567".toList := by
  exact C9_registry_failure_no_suppression (fun _ => .error "db down".toList) msgHello
    ⟨.str "wamid.2", "+1234567".toList, .null, .str "text", .str "hello"⟩ rfl

/-! ### C3: webhook POST handler status codes -/

theorem processingErrors_nonempty (pe : JVal → Except (List Char) Unit) (body : JVal)
    (hok : validate_webhook_payload_structure body = .ok ())
    (hzero : processedCount pe body = 0) :
    (processingErrors pe body).isEmpty = false := by
  obtain ⟨es, hes, hne⟩ := validate_ok_entries body hok
  have hentries : getEntries body = es := by
    simp [getEntries, hes]
  cases es with
  | nil => exact absurd rfl hne
  | cons x xs =>
    unfold processedCount entryResults at hzero
    rw [hentries] at hzero
    unfold processingErrors entryResults
    rw [hentries]
    rw [List.map_cons] at hzero ⊢
    rw [List.countP_cons] at hzero
    cases hx : pe x with
    | ok u =>
      rw [hx] at hzero
      rw [if_pos (show (Except.ok u : Except (List Char) Unit).isOk = true from rfl)] at hzero
      omega
    | error e0 =>
      rfl

/-- C3 counterexample: with a configured secret in a non-development
environment, a request with a missing signature header fails signature
verification and is answered with HTTP 401, not the HTTP 400 the claim
states for signature failure. -/
theorem C3_counterexample :
    receive_message cfgProd (fun _ => .ok ()) [1] none (some (.obj [])) =
      .errorResponse "WEBHOOK_SIGNATURE_INVALID".toList 401 ∧
    (receive_message cfgProd (fun _ => .ok ()) [1] none (some (.obj []))).status = 401 ∧
    (receive_message cfgProd (fun _ => .ok ()) [1] none (some (.obj []))).status ≠ 400 := by
  exact ⟨rfl, rfl, by decide⟩

/-- C3 (amended): the webhook POST handler answers 401 on signature
failure (whether verification returns false or raises a format error),
400 on structural failure (empty body, unparseable JSON, or invalid
payload structure), 200 whenever at least one entry was processed
successfully (even if others failed), and 500 when validation passed but
every entry failed to process. -/
theorem C3_webhook_status (cfg : Config) (pe : JVal → Except (List Char) Unit)
    (raw : List Nat) (xsig : Option (List Char)) (parsed : Option JVal)
    (body : JVal) (e : List Char) :
    ((verify_webhook_signature cfg raw (headerValue xsig) none = .ok false →
        (receive_message cfg pe raw xsig parsed).status = 401) ∧
     (verify_webhook_signature cfg raw (headerValue xsig) none = .error e →
        (receive_message cfg pe raw xsig parsed).status = 401)) ∧
    (verify_webhook_signature cfg raw (headerValue xsig) none = .ok true →
      ((raw = [] → (receive_message cfg pe raw xsig parsed).status = 400) ∧
       (raw ≠ [] → parsed = none →
         (receive_message cfg pe raw xsig parsed).status = 400) ∧
       (raw ≠ [] → parsed = some body →
         ((validate_webhook_payload_structure body = .error e →
            (receive_message cfg pe raw xsig parsed).status = 400) ∧
          (validate_webhook_payload_structure body = .ok () →
            ((1 ≤ processedCount pe body →
               receive_message cfg pe raw xsig parsed =
                 .okJson (processedCount pe body) (processingErrors pe body) ∧
               (receive_message cfg pe raw xsig parsed).status = 200) ∧
             (processedCount pe body = 0 →
               (receive_message cfg pe raw xsig parsed).status = 500))))))) := by
  refine ⟨⟨?_, ?_⟩, ?_⟩
  · intro hv
    simp only [receive_message]
    rw [hv]
    rfl
  · intro hv
    simp only [receive_message]
    rw [hv]
    rfl
  · intro hv
    have hrm : receive_message cfg pe raw xsig parsed =
        receive_after_verify pe raw parsed := by
      simp only [receive_message]
      rw [hv]
    refine ⟨?_, ?_, ?_⟩
    · intro hraw
      rw [hrm]
      simp only [receive_after_verify]
      rw [if_pos hraw]
      rfl
    · intro hraw hparsed
      rw [hrm]
      simp only [receive_after_verify]
      rw [if_neg hraw, hparsed]
      rfl
    · intro hraw hparsed
      have hrm2 : receive_message cfg pe raw xsig parsed =
          (match validate_webhook_payload_structure body with
          | .error _ => WebhookResponse.errorResponse "WEBHOOK_PAYLOAD_INVALID".toList 400
          | .ok _ =>
            if !(processingErrors pe body).isEmpty ∧ processedCount pe body = 0 then
              WebhookResponse.errorResponse "WEBHOOK_PROCESSING_FAILED".toList 500
            else
              WebhookResponse.okJson (processedCount pe body) (processingErrors pe body)) := by
        rw [hrm]
        simp only [receive_after_verify]
        rw [if_neg hraw, hparsed]
      refine ⟨?_, ?_⟩
      · intro hval
        rw [hrm2, hval]
        rfl
      · intro hval
        rw [hrm2, hval]
        dsimp only
        refine ⟨?_, ?_⟩
        · intro hone
          rw [if_neg (fun hcon => by omega)]
          exact ⟨rfl, rfl⟩
        · intro hzero
          rw [if_pos ⟨by rw [processingErrors_nonempty pe body hval hzero]; rfl, hzero⟩]
          rfl

/-- Witness for C3: a missing-prefix header yields 401; with
verification bypassed, a two-entry body where both entries process gives
200, and one where both fail gives 500. -/
theorem C3_webhook_status_witness :
    (receive_message cfgProd (fun _ => .ok ()) [1] (some "bad".toList)
      (some bodyTwoEntries)).status = 401 ∧
    receive_message cfgOpen (fun _ => .ok ()) [1] none (some bodyTwoEntries) =
      .okJson 2 [] ∧
    (receive_message cfgOpen (fun _ => .error "boom".toList) [1] none
      (some bodyTwoEntries)).status = 500 := by
  refine ⟨?_, ?_, ?_⟩
  · exact (C3_webhook_status cfgProd (fun _ => .ok ()) [1] (some "bad".toList)
      (some bodyTwoEntries) bodyTwoEntries
      "Invalid signature format - must start with 'sha256='".toList).1.2 rfl
  · have h := ((C3_webhook_status cfgOpen (fun _ => .ok ()) [1] none
      (some bodyTwoEntries) bodyTwoEntries []).2 rfl).2.2
      (by decide) rfl
    exact (h.2 rfl).1 (by decide) |>.1
  · have h := ((C3_webhook_status cfgOpen (fun _ => .error "boom".toList) [1] none
      (some bodyTwoEntries) bodyTwoEntries []).2 rfl).2.2
      (by decide) rfl
    exact (h.2 rfl).2 (by decide)

/-! ### C8: delivery-client validation order -/

/-- C8 counterexample: with credentials missing and an empty recipient,
`send_message` returns a validation error, not the configuration error
the claim requires whenever credentials are missing — the emptiness
checks run first. -/
theorem C8_counterexample :
    (send_message cfgNoCreds (.resp 200) [] "hi".toList).fst.error_type =
      some "validation".toList ∧
    cfgNoCreds.WHATSAPP_ACCESS_TOKEN = [] ∧
    some "validation".toList ≠ some "configuration".toList := by
  refine ⟨rfl, rfl, by decide⟩

/-- C8 (amended): `send_message` validates in source order, each failure
returning without a network call: empty-after-trimming recipient or
message gives a validation error; then missing credentials give a
configuration error; then a trimmed message longer than 4096 characters
gives a validation error; and the network is only ever called when all
these checks passed. -/
theorem C8_send_validation_order (cfg : Config) (net : NetOutcome)
    (recipient msgText : List Char) :
    ((recipient = [] ∨ pyStrip recipient = [] ∨ msgText = [] ∨ pyStrip msgText = []) →
      (send_message cfg net recipient msgText).fst.error_type = some "validation".toList ∧
      (send_message cfg net recipient msgText).snd = false) ∧
    (¬(recipient = [] ∨ pyStrip recipient = []) →
      ¬(msgText = [] ∨ pyStrip msgText = []) →
      (cfg.WHATSAPP_ACCESS_TOKEN = [] ∨ cfg.WHATSAPP_PHONE_NUMBER_ID = []) →
      (send_message cfg net recipient msgText).fst.error_type =
        some "configuration".toList ∧
      (send_message cfg net recipient msgText).snd = false) ∧
    (¬(recipient = [] ∨ pyStrip recipient = []) →
      ¬(msgText = [] ∨ pyStrip msgText = []) →
      ¬(cfg.WHATSAPP_ACCESS_TOKEN = [] ∨ cfg.WHATSAPP_PHONE_NUMBER_ID = []) →
      (pyStrip msgText).length > 4096 →
      (send_message cfg net recipient msgText).fst.error_type = some "validation".toList ∧
      (send_message cfg net recipient msgText).snd = false) ∧
    ((send_message cfg net recipient msgText).snd = true →
      ¬(recipient = [] ∨ pyStrip recipient = []) ∧
      ¬(msgText = [] ∨ pyStrip msgText = []) ∧
      ¬(cfg.WHATSAPP_ACCESS_TOKEN = [] ∨ cfg.WHATSAPP_PHONE_NUMBER_ID = []) ∧
      (pyStrip msgText).length ≤ 4096) := by
  refine ⟨?_, ?_, ?_, ?_⟩
  · intro h
    simp only [send_message]
    by_cases h1 : recipient = [] ∨ pyStrip recipient = []
    · rw [if_pos h1]
      exact ⟨rfl, rfl⟩
    · rw [if_neg h1]
      have h2 : msgText = [] ∨ pyStrip msgText = [] := by tauto
      rw [if_pos h2]
      exact ⟨rfl, rfl⟩
  · intro h1 h2 h3
    simp only [send_message]
    rw [if_neg h1, if_neg h2, if_pos h3]
    exact ⟨rfl, rfl⟩
  · intro h1 h2 h3 h4
    simp only [send_message]
    rw [if_neg h1, if_neg h2, if_neg h3, if_pos h4]
    exact ⟨rfl, rfl⟩
  · intro hnet
    simp only [send_message] at hnet
    by_cases h1 : recipient = [] ∨ pyStrip recipient = []
    · rw [if_pos h1] at hnet
      exact absurd hnet (by simp)
    rw [if_neg h1] at hnet
    by_cases h2 : msgText = [] ∨ pyStrip msgText = []
    · rw [if_pos h2] at hnet
      exact absurd hnet (by simp)
    rw [if_neg h2] at hnet
    by_cases h3 : cfg.WHATSAPP_ACCESS_TOKEN = [] ∨ cfg.WHATSAPP_PHONE_NUMBER_ID = []
    · rw [if_pos h3] at hnet
      exact absurd hnet (by simp)
    rw [if_neg h3] at hnet
    by_cases h4 : (pyStrip msgText).length > 4096
    · rw [if_pos h4] at hnet
      exact absurd hnet (by simp)
    · exact ⟨h1, h2, h3, by omega⟩

/-- Witness for C8: the validation branch at an empty recipient, and the
configuration branch once recipient and message are non-empty. -/
theorem C8_send_validation_order_witness :
    ((send_message cfgNoCreds (.resp 200) [] "hi".toList).fst.error_type =
      some "validation".toList ∧
     (send_message cfgNoCreds (.resp 200) [] "hi".toList).snd = false) ∧
    ((send_message cfgNoCreds (.resp 200) "+15551234567".toList "hi".toList).fst.error_type =
      some "configuration".toList ∧
     (send_message cfgNoCreds (.resp 200) "+15551234567".toList "hi".toList).snd = false) := by
  refine ⟨(C8_send_validation_order cfgNoCreds (.resp 200) [] "hi".toList).1 (Or.inl rfl), ?_⟩
  exact (C8_send_validation_order cfgNoCreds (.resp 200) "+15551234567".toList
    "hi".toList).2.1 (by decide) (by decide) (Or.inl rfl)

end HealthBot
